import Mathlib

/-!
Shallow embedding of `src/Routes/Store.py` (Paystack store routes of the
controlpanel repository): the product catalog, the `checkout` initiation
route, the `success` verification callback and the `cancel` route, together
with the Python-level semantics they rely on (dict lookup vs. indexing,
truthiness, `int(...)` conversion, exceptions caught by the route handlers,
and the IEEE-754 binary64 arithmetic behind `int(amount / 100 * 100)`).
-/

namespace Store

/-! ### JSON values

Gateway responses are `response.json()` results: JSON values.  Numbers are
modelled as integers (all numeric fields the routes touch — `amount`,
`value` — are integral in the gateway protocol; fractional JSON numbers are
out of scope).  Object keys are assumed distinct, as produced by a JSON
parser. -/

inductive JVal : Type where
  | jnull : JVal
  | jbool : Bool → JVal
  | jnum : Int → JVal
  | jstr : String → JVal
  | jarr : List JVal → JVal
  | jobj : List (String × JVal) → JVal
  deriving Repr

/-- Python exceptions distinguished by the handlers in `Store.py`.
`requests.exceptions.RequestException` (transport failure, and the JSON
decode error of a non-JSON body in current `requests`) is kept apart in
`HttpOutcome`; the exceptions below are the ones a `try:` body itself can
raise. -/
inductive PyErr : Type where
  | keyError : PyErr        -- `d[k]` with `k` missing
  | typeError : PyErr       -- indexing / arithmetic on an unsupported type
  | attributeError : PyErr  -- `.get` on a non-dict
  | valueError : PyErr      -- `int(s)` on a non-numeric string
  deriving Repr, DecidableEq

/-- Pure dict lookup: `some v` iff the value is an object holding the key
(first binding; keys are distinct). -/
def jget? : JVal → String → Option JVal
  | .jobj fs, k => fs.lookup k
  | _, _ => none

/-- Python `d.get(k)`: returns the optional value, raising
`AttributeError` when the receiver is not a dict. -/
def pyGet : JVal → String → Except PyErr (Option JVal)
  | .jobj fs, k => .ok (fs.lookup k)
  | _, _ => .error .attributeError

/-- Python `d[k]`: `TypeError` on a non-dict receiver, `KeyError` on a
missing key. -/
def pyIndex : JVal → String → Except PyErr JVal
  | .jobj fs, k =>
      match fs.lookup k with
      | some v => .ok v
      | none => .error .keyError
  | _, _ => .error .typeError

/-- Python truthiness of a JSON value (`None`, `False`, `0`, `""`, `[]`,
`{}` are falsy). -/
def truthy : JVal → Bool
  | .jnull => false
  | .jbool b => b
  | .jnum n => n != 0
  | .jstr s => !s.isEmpty
  | .jarr xs => !xs.isEmpty
  | .jobj fs => !fs.isEmpty

/-- Truthiness of a `d.get(k)` result (`None` when absent). -/
def truthyOpt : Option JVal → Bool
  | none => false
  | some v => truthy v

/-- Whether a JSON value equals a given Python string under `==`
(a string compares equal only to an equal string). -/
def isStr : JVal → String → Bool
  | .jstr t, s => t == s
  | _, _ => false

/-- Python `int(x)` for the values that can appear as a metadata `value`:
ints are returned as-is, bools coerce (`int(True) == 1`), decimal strings
parse (sign allowed; further Python niceties such as surrounding
whitespace or underscores are not needed by the routes), everything else
raises. -/
def pyToInt : JVal → Except PyErr Int
  | .jnum n => .ok n
  | .jbool b => .ok (if b then 1 else 0)
  | .jstr s =>
      match s.toInt? with
      | some n => .ok n
      | none => .error .valueError
  | _ => .error .typeError

/-- Total mirror of `pyToInt` for use in specification statements. -/
def pyToInt? (v : JVal) : Option Int := (pyToInt v).toOption

/-- Python `for x in v`: lists yield elements, dicts their keys, strings
their characters; other values raise `TypeError`. -/
def iterElems : JVal → Except PyErr (List JVal)
  | .jarr xs => .ok xs
  | .jobj fs => .ok (fs.map fun kv => .jstr kv.1)
  | .jstr s => .ok (s.toList.map fun c => .jstr (String.mk [c]))
  | _ => .error .typeError

end Store

namespace Store

/-! ### IEEE-754 binary64 arithmetic

`Store.py` computes `int(product['price'] * 100)` on float prices and, in
the verification fallback, `int(verified_data['amount'] / 100 * 100)` where
`amount / 100` is Python true division of an int — the correctly rounded
binary64 quotient — and `* 100` is a correctly rounded binary64 product.
Nonnegative finite doubles are modelled as dyadic rationals `m * 2 ^ e`
with a 53-bit significand produced by round-to-nearest, ties-to-even.
Exponent overflow and subnormals are outside the modelled range (the
routes only ever round values well inside the normal range). -/

/-- A nonnegative binary64 value `m * 2 ^ e`. -/
structure F64 where
  m : Nat
  e : Int
  deriving Repr, DecidableEq

/-- `⌊log₂ n⌋` by structural recursion on a fuel argument (so that the
kernel can evaluate it, unlike the well-founded `Nat.log2`). -/
def log2Aux : Nat → Nat → Nat
  | 0, _ => 0
  | fuel + 1, n => if n < 2 then 0 else log2Aux fuel (n / 2) + 1

/-- `⌊log₂ n⌋` for `n ≥ 1` (0 at 0); agrees with `Nat.log2`. -/
def natLog2 (n : Nat) : Nat := log2Aux n n

/-- Round `N / D` (with `D ≠ 0`) to the nearest integer, ties to even. -/
def rnde (N D : Nat) : Nat :=
  let q := N / D
  let r := N % D
  if 2 * r < D then q
  else if D < 2 * r then q + 1
  else if q % 2 = 0 then q else q + 1

/-- The significand obtained by rounding `n / d` at bit position `e`,
i.e. the nearest integer to `n / (d * 2 ^ e)`, ties to even. -/
def sigAt (n d : Nat) (e : Int) : Nat :=
  if 0 ≤ e then rnde n (d * 2 ^ e.toNat) else rnde (n * 2 ^ (-e).toNat) d

/-- Round the positive rational `n / d` to the nearest binary64 value
(round to nearest, ties to even), assuming the result lies in the normal
range.  The initial exponent guess puts `n / d / 2 ^ e0` in
`(2 ^ 52, 2 ^ 54)`; one re-rounding step fixes the position when the first
attempt lands at or above `2 ^ 53`. -/
def flRat (n d : Nat) : F64 :=
  let e0 : Int := (natLog2 n : Int) - (natLog2 d : Int) - 53
  let s0 := sigAt n d e0
  if s0 < 2 ^ 53 then ⟨s0, e0⟩
  else
    let s1 := sigAt n d (e0 + 1)
    if s1 = 2 ^ 53 then ⟨2 ^ 52, e0 + 2⟩ else ⟨s1, e0 + 1⟩

/-- The binary64 value of a nonnegative integer (exact below `2 ^ 53`). -/
def floatOfNat (n : Nat) : F64 :=
  if n = 0 then ⟨0, 0⟩ else flRat n 1

/-- Correctly rounded binary64 product `x * 100` (Python `x * 100` on a
float). -/
def fmul100 (x : F64) : F64 :=
  if x.m = 0 then ⟨0, 0⟩
  else if 0 ≤ x.e then flRat (x.m * 100 * 2 ^ x.e.toNat) 1
  else flRat (x.m * 100) (2 ^ (-x.e).toNat)

/-- Python `int(x)` on a nonnegative float: truncation toward zero. -/
def ftruncNat (x : F64) : Nat :=
  if 0 ≤ x.e then x.m * 2 ^ x.e.toNat else x.m / 2 ^ (-x.e).toNat

/-- The exact rational value of a modelled double. -/
def F64.toRat (x : F64) : ℚ :=
  if 0 ≤ x.e then (x.m * 2 ^ x.e.toNat : ℚ) else (x.m : ℚ) / (2 ^ (-x.e).toNat : ℚ)

/-- Python `int(n / 100 * 100)` for a nonnegative int `n`: `n / 100` is
the correctly rounded binary64 quotient, `* 100` the correctly rounded
binary64 product, `int` truncation. -/
def pyFallbackNat (n : Nat) : Nat :=
  if n = 0 then 0 else ftruncNat (fmul100 (flRat n 100))

/-- Python `int(n / 100 * 100)` for any int `n`; binary64 rounding and
`int` truncation are symmetric under negation. -/
def pyFallback (z : Int) : Int :=
  if z < 0 then -(pyFallbackNat z.natAbs : Int) else (pyFallbackNat z.natAbs : Int)

/-- The fallback credit computation of the success route
(`amount_paid_major_unit = verified_data['amount'] / 100;
credits_to_add = int(amount_paid_major_unit * 100)`), raising `TypeError`
when `amount` is not a number (as Python `/` would). -/
def pyFallbackVal : JVal → Except PyErr Int
  | .jnum z => .ok (pyFallback z)
  | .jbool b => .ok (pyFallback (if b then 1 else 0))
  | _ => .error .typeError

end Store

namespace Store

/-! ### Data model of the routes -/

/-- The session fields `Store.py` reads or writes: `email` (read by
`checkout`) and `paystack_reference` (written by `checkout`, consumed by
`success` and `cancel`).  `none` models an absent key. -/
structure Session where
  email : Option String
  paystack_reference : Option String
  deriving Repr, DecidableEq

/-- One catalog entry.  The source's float literals `5.00`, `10.00`,
`20.00` denote exactly the binary64 values 5, 10 and 20, hence
`floatOfNat`. -/
structure Product where
  id : Int
  name : String
  price : F64
  credits : Int
  deriving Repr

/-- The static catalog of `Store.py`. -/
def products : List Product :=
  [⟨1, "Small Credit Pack", floatOfNat 5, 500⟩,
   ⟨2, "Medium Credit Pack", floatOfNat 10, 1200⟩,
   ⟨3, "Large Credit Pack", floatOfNat 20, 2500⟩]

/-- `amount_in_subunit = int(product['price'] * 100)`: binary64 product,
truncated. -/
def amount_in_subunit (p : Product) : Nat := ftruncNat (fmul100 p.price)

/-- `f"LUNES-{user_email[:4].upper()}-{product_id}-{uuid4().hex[:10].upper()}"`;
the random `uuid4().hex` is passed in as a parameter. -/
def generate_paystack_reference (user_email : String) (product_id : Int)
    (uuidHex : String) : String :=
  "LUNES-" ++ (user_email.take 4).toUpper ++ "-" ++ toString product_id ++ "-"
    ++ (uuidHex.take 10).toUpper

/-- Outcome of one outbound `requests` call: either a
`requests.exceptions.RequestException` (transport failure; in current
`requests` a non-JSON body raises a `JSONDecodeError`, which is also a
`RequestException`) or a decoded JSON body. -/
inductive HttpOutcome : Type where
  | transportErr : HttpOutcome
  | ok : JVal → HttpOutcome
  deriving Repr

/-- Where a route run of `Store.py` sends the browser. -/
inductive Redirect : Type where
  | userIndex : Redirect                 -- url_for("user.index")
  | storePage : Redirect                 -- url_for("store.store_page")
  | gateway : JVal → Redirect            -- redirect(authorization_url)
  deriving Repr

/-- The `flash(...)` messages of `Store.py`, tagged by call site. -/
inductive FlashMsg : Type where
  | invalidProduct : FlashMsg            -- "Invalid product selected."
  | noEmail : FlashMsg                   -- "User session error: Email not found."
  | gatewayNotConfigured : FlashMsg      -- "Payment gateway not configured correctly."
  | initFailed : JVal → FlashMsg         -- "Payment initiation failed: ..."
  | connectError : FlashMsg              -- "Could not connect to payment gateway."
  | noReference : FlashMsg               -- "Payment verification failed: No transaction reference found."
  | credited : FlashMsg                  -- "Success! Your account has been credited."
  | paymentFailed : JVal → String → FlashMsg -- "Payment failed: {status_msg}... reference: {reference}"
  | verifyConnectError : FlashMsg        -- "Failed to verify payment with Paystack due to a connection error."
  | internalError : FlashMsg             -- "An internal error occurred during payment verification."
  | cancelled : FlashMsg                 -- "Payment cancelled. No charge was made."
  deriving Repr

/-- The observable payload of the `transaction/initialize` POST (the
constant `callback_url` and headers are omitted; `metaCredits` is the
`credits_to_add` custom field). -/
structure InitPayload where
  email : String
  amount : Nat
  reference : String
  metaCredits : Int
  deriving Repr

/-- Observable result of a completed `checkout` run. -/
structure CheckoutResult where
  called : Option InitPayload
  flash : Option FlashMsg
  redirect : Redirect
  session : Session

/-- A `checkout` run either returns a redirect or lets an exception
escape (its `try` only catches `RequestException`); `unhandled` records
the session at the moment of the raise and whether the outbound call had
been made. -/
inductive CheckoutOutcome : Type where
  | done : CheckoutResult → CheckoutOutcome
  | unhandled : PyErr → Session → Option InitPayload → CheckoutOutcome

def CheckoutOutcome.sessionOf : CheckoutOutcome → Session
  | .done r => r.session
  | .unhandled _ s _ => s

def CheckoutOutcome.isDone : CheckoutOutcome → Bool
  | .done _ => true
  | .unhandled _ _ _ => false

/-- The `checkout(product_id)` route.  Parameters: the session, the
configured `PAYSTACK_SECRET_KEY` (`none` when absent), the random
`uuid4().hex` used for the reference, and the gateway's response to the
initialize call (unused when the code never reaches the call). -/
def checkout (product_id : Int) (sess : Session) (secretKey : Option String)
    (uuidHex : String) (init : HttpOutcome) : CheckoutOutcome :=
  match products.find? (fun p => p.id == product_id) with
  | none => .done ⟨none, some .invalidProduct, .storePage, sess⟩
  | some product =>
    let amount := amount_in_subunit product
    let user_email := sess.email.getD ""
    if user_email.isEmpty then
      .done ⟨none, some .noEmail, .userIndex, sess⟩
    else if (secretKey.getD "").isEmpty then
      .done ⟨none, some .gatewayNotConfigured, .userIndex, sess⟩
    else
      let reference := generate_paystack_reference user_email product_id uuidHex
      let payload : InitPayload := ⟨user_email, amount, reference, product.credits⟩
      match init with
      | .transportErr => .done ⟨some payload, some .connectError, .userIndex, sess⟩
      | .ok body =>
        match pyGet body "status" with
        | .error e => .unhandled e sess (some payload)
        | .ok st =>
          if truthyOpt st then
            let sess' : Session := { sess with paystack_reference := some reference }
            match (pyIndex body "data").bind (fun d => pyIndex d "authorization_url") with
            | .error e => .unhandled e sess' (some payload)
            | .ok u => .done ⟨some payload, none, .gateway u, sess'⟩
          else
            .done ⟨some payload,
              some (.initFailed ((jget? body "message").getD (.jstr "Unknown API Error"))),
              .userIndex, sess⟩

/-! ### The `success` verification callback -/

/-- Truthiness-aware comparison `o == 'credits_to_add'`-style: a
`d.get(k)` result compares equal to a string only when it is that
string. -/
def optIsStr (o : Option JVal) (s : String) : Bool :=
  match o with
  | some v => isStr v s
  | none => false

/-- The metadata scan of lines 209–213:
`for field in ...: if field.get('variable_name') == 'credits_to_add':
credits_to_add = int(field['value']); break`, starting from 0. -/
def scanFields : List JVal → Except PyErr Int
  | [] => .ok 0
  | f :: rest => do
      let vn ← pyGet f "variable_name"
      if optIsStr vn "credits_to_add" then
        let v ← pyIndex f "value"
        pyToInt v
      else
        scanFields rest

/-- The `else` branch of the verification (lines 233–236):
`status_msg = response_data['data'].get('gateway_response',
response_data['data']['status'])` — the `.get` receiver must be a dict and
the default argument is evaluated eagerly, so a missing `data` or a
missing `data.status` raises here. -/
def failedBranch (resp : JVal) (reference : String) :
    Except PyErr (List (JVal × Int) × FlashMsg) := do
  let d ← pyIndex resp "data"
  let gw ← pyGet d "gateway_response"
  let defv ← pyIndex d "status"
  .ok ([], .paymentFailed (gw.getD defv) reference)

/-- The body of the `try:` in `success` after the verify call returned
JSON `resp`: yields the list of `add_credits` calls made and the flash
message, or the exception the broad handler catches. -/
def verifyBody (resp : JVal) (reference : String) :
    Except PyErr (List (JVal × Int) × FlashMsg) := do
  let st ← pyGet resp "status"
  if truthyOpt st then
    let data ← pyIndex resp "data"
    let dstatus ← pyIndex data "status"
    if isStr dstatus "success" then
      let meta := (← pyGet data "metadata").getD (.jobj [])
      let cf := (← pyGet meta "custom_fields").getD (.jarr [])
      let elems ← iterElems cf
      let c0 ← scanFields elems
      let credits_to_add ← if c0 = 0 then (pyIndex data "amount").bind pyFallbackVal else .ok c0
      let customer ← pyIndex data "customer"
      let email ← pyIndex customer "email"
      .ok ([(email, credits_to_add)], .credited)
    else
      failedBranch resp reference
  else
    failedBranch resp reference

/-- `reference = request.args.get('reference') or session.get('paystack_reference')`
followed by `if not reference:` — the reference the route acts on, or
`none` when every candidate is absent or empty (falsy). -/
def resolvedRef (qref : Option String) (sess : Session) : Option String :=
  let r : Option String :=
    match qref with
    | some s => if s.isEmpty then sess.paystack_reference else some s
    | none => sess.paystack_reference
  match r with
  | some s => if s.isEmpty then none else some s
  | none => none

/-- Observable result of a `success` (or `cancel`) run. -/
structure SuccessResult where
  credits : List (JVal × Int)
  flash : FlashMsg
  redirect : Redirect
  session : Session

/-- A verification run; `unhandled` is nominally possible in the type but
`success` catches every exception (its second handler is
`except Exception`). -/
inductive SuccessOutcome : Type where
  | done : SuccessResult → SuccessOutcome
  | unhandled : PyErr → Session → SuccessOutcome

def SuccessOutcome.creditsOf : SuccessOutcome → List (JVal × Int)
  | .done r => r.credits
  | .unhandled _ _ => []

def SuccessOutcome.sessionOf : SuccessOutcome → Session
  | .done r => r.session
  | .unhandled _ s => s

def SuccessOutcome.redirectOf : SuccessOutcome → Option Redirect
  | .done r => some r.redirect
  | .unhandled _ _ => none

/-- The `success` route.  `qref` is the `reference` query parameter,
`verify` the outcome of the verify GET for the resolved reference. -/
def success (qref : Option String) (sess : Session) (verify : HttpOutcome) :
    SuccessOutcome :=
  match resolvedRef qref sess with
  | none => .done ⟨[], .noReference, .userIndex, sess⟩
  | some reference =>
    let sess' : Session := { sess with paystack_reference := none }
    match verify with
    | .transportErr => .done ⟨[], .verifyConnectError, .userIndex, sess'⟩
    | .ok body =>
      match verifyBody body reference with
      | .ok (cs, fl) => .done ⟨cs, fl, .userIndex, sess'⟩
      | .error _ => .done ⟨[], .internalError, .userIndex, sess'⟩

/-- The `cancel` route: clear the pending reference, flash, redirect. -/
def cancel (sess : Session) : SuccessOutcome :=
  .done ⟨[], .cancelled, .userIndex, { sess with paystack_reference := none }⟩

end Store

namespace Store

/-! ### Specification-side observables

Total functions over a verify response, used to state claims; each one is
a plain read of the JSON tree (no exceptions), to be related to the
exception-raising route code by the theorems below. -/

/-- The gateway reported overall success and transaction status
`"success"`: the guard of line 199, as a pure predicate on the response
(`false` covers a falsy/missing status flag, a missing or non-object
`data`, and any other transaction status). -/
def gatewaySaysSuccess (v : JVal) : Bool :=
  truthyOpt (jget? v "status") &&
    (match (jget? v "data").bind (fun d => jget? d "status") with
     | some s => isStr s "success"
     | none => false)

/-- The email carried on the verified transaction
(`data.customer.email`), when present. -/
def customerEmail? (v : JVal) : Option JVal :=
  ((jget? v "data").bind (fun d => jget? d "customer")).bind (fun c => jget? c "email")

/-- The value the loop of line 210 iterates over:
`data.get('metadata', {}).get('custom_fields', [])`, or `none` when the
`metadata` value is not an object (in which case the route raises). -/
def customFieldsOf (data : JVal) : Option JVal :=
  match (jget? data "metadata").getD (.jobj []) with
  | .jobj fs => some ((fs.lookup "custom_fields").getD (.jarr []))
  | _ => none

/-- The loop skips this element without raising: an object whose
`variable_name` is not `"credits_to_add"`. -/
def fieldSkipped (x : JVal) : Bool :=
  match x with
  | .jobj fs => !(optIsStr (fs.lookup "variable_name") "credits_to_add")
  | _ => false

/-- The loop selects this element: its `variable_name` is
`"credits_to_add"`. -/
def isCreditsField (x : JVal) : Bool :=
  optIsStr (jget? x "variable_name") "credits_to_add"

/-- The integer the loop would extract from a selected entry
(`int(field['value'])`), or `none` when `value` is missing or not
convertible. -/
def intOfField (x : JVal) : Option Int :=
  (jget? x "value").bind pyToInt?

/-- The exact condition under which `checkout` stores the generated
reference into the session (line 153): catalog hit, truthy email, truthy
secret key, and an initialize response with a truthy `status` flag. -/
def checkoutWrites (product_id : Int) (sess : Session) (secretKey : Option String)
    (init : HttpOutcome) : Bool :=
  (products.find? (fun p => p.id == product_id)).isSome &&
  !(sess.email.getD "").isEmpty &&
  !(secretKey.getD "").isEmpty &&
  (match init with
   | .ok v => truthyOpt (jget? v "status")
   | .transportErr => false)

/-- Initialize responses on which `checkout` cannot raise past its
`RequestException` handler: a transport error, or a JSON object that
either has a falsy `status` flag or carries `data.authorization_url`. -/
def initRespBenign : HttpOutcome → Bool
  | .transportErr => true
  | .ok v =>
    match v with
    | .jobj fs =>
        if truthyOpt (fs.lookup "status") then
          ((fs.lookup "data").bind (fun d => jget? d "authorization_url")).isSome
        else true
    | _ => false

/-! ### Bridging lemmas -/

@[simp] theorem ok_bind {α β : Type} (a : α) (f : α → Except PyErr β) :
    (Except.ok a >>= f : Except PyErr β) = f a := rfl

@[simp] theorem error_bind {α β : Type} (e : PyErr) (f : α → Except PyErr β) :
    (Except.error e >>= f : Except PyErr β) = Except.error e := rfl

theorem pyIndex_eq_ok {v : JVal} {k : String} {x : JVal} :
    pyIndex v k = .ok x ↔ jget? v k = some x := by
  cases v <;> simp [pyIndex, jget?]
  case jobj fs => cases fs.lookup k <;> simp

theorem pyIndex_eq_ok_of (v : JVal) (k : String) (x : JVal)
    (h : jget? v k = some x) : pyIndex v k = .ok x :=
  pyIndex_eq_ok.mpr h

theorem pyGet_jobj (fs : List (String × JVal)) (k : String) :
    pyGet (.jobj fs) k = .ok (fs.lookup k) := rfl

theorem jget_isSome_obj {v : JVal} {k : String} {x : JVal}
    (h : jget? v k = some x) : ∃ fs, v = JVal.jobj fs := by
  cases v <;> simp [jget?] at h ⊢

end Store


namespace Store

/-! ### Lemmas about the verification body -/

/-- The failure branch of `success` never credits anyone. -/
theorem failedBranch_credits (resp : JVal) (ref : String)
    (out : List (JVal × Int) × FlashMsg) (h : failedBranch resp ref = .ok out) :
    out.1 = [] := by
  unfold failedBranch at h
  cases hd : pyIndex resp "data" with
  | error e => rw [hd] at h; simp at h
  | ok d =>
    rw [hd] at h; simp only [ok_bind] at h
    cases hg : pyGet d "gateway_response" with
    | error e => rw [hg] at h; simp at h
    | ok gw =>
      rw [hg] at h; simp only [ok_bind] at h
      cases hs : pyIndex d "status" with
      | error e => rw [hs] at h; simp at h
      | ok defv =>
        rw [hs] at h; simp only [ok_bind] at h
        cases h
        rfl

/-- If the verify response does not say `status`-flag-true with
transaction status `"success"`, the try body makes no `add_credits`
call: it either takes the failure branch or raises. -/
theorem verifyBody_no_credit (resp : JVal) (ref : String)
    (out : List (JVal × Int) × FlashMsg)
    (hgs : gatewaySaysSuccess resp = false) (h : verifyBody resp ref = .ok out) :
    out.1 = [] := by
  unfold verifyBody at h
  cases resp with
  | jnull => simp [pyGet] at h
  | jbool b => simp [pyGet] at h
  | jnum n => simp [pyGet] at h
  | jstr s => simp [pyGet] at h
  | jarr xs => simp [pyGet] at h
  | jobj fs =>
    rw [pyGet_jobj] at h
    simp only [ok_bind] at h
    by_cases ht : truthyOpt (fs.lookup "status") = true
    · rw [if_pos ht] at h
      cases hd : pyIndex (JVal.jobj fs) "data" with
      | error e => rw [hd] at h; simp at h
      | ok data =>
        rw [hd] at h; simp only [ok_bind] at h
        cases hs : pyIndex data "status" with
        | error e => rw [hs] at h; simp at h
        | ok dstatus =>
          rw [hs] at h; simp only [ok_bind] at h
          have hjd := pyIndex_eq_ok.mp hd
          have hjs := pyIndex_eq_ok.mp hs
          have hfalse : isStr dstatus "success" = false := by
            unfold gatewaySaysSuccess at hgs
            rw [hjd] at hgs
            simp only [Option.some_bind] at hgs
            rw [hjs] at hgs
            have ht' : truthyOpt (jget? (JVal.jobj fs) "status") = true := ht
            simpa [ht'] using hgs
          rw [hfalse] at h
          simp only [Bool.false_eq_true, if_false] at h
          exact failedBranch_credits _ _ _ h
    · rw [if_neg ht] at h
      exact failedBranch_credits _ _ _ h

end Store

namespace Store

/-! ### Claim theorems -/

/-- C1: whenever the verify response does not report a truthy overall
status flag together with transaction status `"success"` — including
responses with a falsy or missing flag and responses with a missing
`data` field — the `success` route makes no `add_credits` call. -/
theorem success_no_credit_unless_gateway_success (qref : Option String)
    (sess : Session) (v : JVal) (hgs : gatewaySaysSuccess v = false) :
    (success qref sess (.ok v)).creditsOf = [] := by
  unfold success
  cases href : resolvedRef qref sess with
  | none => rfl
  | some r =>
    dsimp only
    cases hvb : verifyBody v r with
    | error e => rfl
    | ok out =>
      obtain ⟨cs, fl⟩ := out
      have hc := verifyBody_no_credit v r (cs, fl) hgs hvb
      simpa [SuccessOutcome.creditsOf] using hc

/-- Witness for C1: a concrete response whose flag is `false` leads to no
credit. -/
theorem success_no_credit_unless_gateway_success_witness :
    gatewaySaysSuccess (.jobj [("status", .jbool false),
        ("data", .jobj [("status", .jstr "failed")])]) = false ∧
    (success (some "LUNES-REF") ⟨some "a@b.c", none⟩
        (.ok (.jobj [("status", .jbool false),
          ("data", .jobj [("status", .jstr "failed")])]))).creditsOf = [] :=
  ⟨rfl, success_no_credit_unless_gateway_success (some "LUNES-REF")
    ⟨some "a@b.c", none⟩ _ rfl⟩

/-- C5: the account credited by `success` is determined by the verified
transaction (the gateway response), never by the session's email — two
runs differing only in the session email make identical `add_credits`
calls. -/
theorem success_credit_ignores_session_email (qref : Option String)
    (sess : Session) (e : Option String) (verify : HttpOutcome) :
    (success qref { sess with email := e } verify).creditsOf =
      (success qref sess verify).creditsOf := by
  unfold success
  have href : resolvedRef qref { sess with email := e } = resolvedRef qref sess := rfl
  rw [href]
  cases resolvedRef qref sess with
  | none => rfl
  | some r =>
    dsimp only
    cases verify with
    | transportErr => rfl
    | ok body =>
      dsimp only
      cases hvb : verifyBody body r with
      | error err => rfl
      | ok out => obtain ⟨cs, fl⟩ := out; rfl

/-- C6: as soon as a (truthy) reference is found, `success` clears the
session-held pending reference, and it stays cleared on every outcome:
gateway success, non-success status, transport error, or a processing
exception. -/
theorem success_clears_reference (qref : Option String) (sess : Session)
    (verify : HttpOutcome) (r : String) (h : resolvedRef qref sess = some r) :
    (success qref sess verify).sessionOf.paystack_reference = none := by
  unfold success
  rw [h]
  dsimp only
  cases verify with
  | transportErr => rfl
  | ok body =>
    dsimp only
    cases hvb : verifyBody body r with
    | error err => rfl
    | ok out => obtain ⟨cs, fl⟩ := out; rfl

/-- Witness for C6: concrete run with a query-parameter reference and a
transport error still ends with no pending reference. -/
theorem success_clears_reference_witness :
    resolvedRef (some "LUNES-REF") ⟨some "a@b.c", some "OLD"⟩ = some "LUNES-REF" ∧
    (success (some "LUNES-REF") ⟨some "a@b.c", some "OLD"⟩
        .transportErr).sessionOf.paystack_reference = none :=
  ⟨rfl, success_clears_reference (some "LUNES-REF") ⟨some "a@b.c", some "OLD"⟩
    .transportErr "LUNES-REF" rfl⟩

/-- C8: for a product id outside the catalog, `checkout` makes no
outbound call, leaves the session untouched, flashes the invalid-product
message and redirects to the store page. -/
theorem checkout_unknown_product (product_id : Int) (sess : Session)
    (secretKey : Option String) (uuidHex : String) (init : HttpOutcome)
    (h : ∀ p ∈ products, p.id ≠ product_id) :
    checkout product_id sess secretKey uuidHex init =
      .done ⟨none, some .invalidProduct, .storePage, sess⟩ := by
  have hf : products.find? (fun p => p.id == product_id) = none := by
    rw [List.find?_eq_none]
    intro p hp
    simpa using h p hp
  unfold checkout
  rw [hf]

/-- Witness for C8: product id 4 is not in the catalog. -/
theorem checkout_unknown_product_witness :
    checkout 4 ⟨some "a@b.c", none⟩ (some "sk") "ABC123" .transportErr =
      .done ⟨none, some .invalidProduct, .storePage, ⟨some "a@b.c", none⟩⟩ :=
  checkout_unknown_product 4 ⟨some "a@b.c", none⟩ (some "sk") "ABC123"
    .transportErr (by intro p hp; fin_cases hp <;> decide)

end Store

namespace Store

/-- C4: for every product id found in the catalog, the subunit amount
that `checkout` sends to the gateway (`int(product['price'] * 100)` in
binary64 arithmetic) equals `round(price × 100)` computed exactly — for
these prices the float product is exact, so truncation and rounding
agree. -/
theorem checkout_amount_is_rounded_price (product_id : Int) (p : Product)
    (h : products.find? (fun q => q.id == product_id) = some p) :
    (amount_in_subunit p : Int) = round (p.price.toRat * 100) := by
  have hp : p ∈ products := List.mem_of_find?_eq_some h
  fin_cases hp
  · have h5 : floatOfNat 5 = ⟨5629499534213120, -50⟩ := by decide
    have ha : amount_in_subunit ⟨1, "Small Credit Pack", floatOfNat 5, 500⟩ = 500 := by decide
    rw [ha]
    show (500 : Int) = round (F64.toRat (floatOfNat 5) * 100)
    rw [h5]
    have ht : F64.toRat ⟨5629499534213120, -50⟩ = (5629499534213120 : ℚ) / 2 ^ 50 := by
      simp [F64.toRat]
    rw [ht]
    have hv : ((5629499534213120 : ℚ) / 2 ^ 50 * 100) = ((500 : ℤ) : ℚ) := by norm_num
    rw [hv, round_intCast]
  · have h10 : floatOfNat 10 = ⟨5629499534213120, -49⟩ := by decide
    have ha : amount_in_subunit ⟨2, "Medium Credit Pack", floatOfNat 10, 1200⟩ = 1000 := by decide
    rw [ha]
    show (1000 : Int) = round (F64.toRat (floatOfNat 10) * 100)
    rw [h10]
    have ht : F64.toRat ⟨5629499534213120, -49⟩ = (5629499534213120 : ℚ) / 2 ^ 49 := by
      simp [F64.toRat]
    rw [ht]
    have hv : ((5629499534213120 : ℚ) / 2 ^ 49 * 100) = ((1000 : ℤ) : ℚ) := by norm_num
    rw [hv, round_intCast]
  · have h20 : floatOfNat 20 = ⟨5629499534213120, -48⟩ := by decide
    have ha : amount_in_subunit ⟨3, "Large Credit Pack", floatOfNat 20, 2500⟩ = 2000 := by decide
    rw [ha]
    show (2000 : Int) = round (F64.toRat (floatOfNat 20) * 100)
    rw [h20]
    have ht : F64.toRat ⟨5629499534213120, -48⟩ = (5629499534213120 : ℚ) / 2 ^ 48 := by
      simp [F64.toRat]
    rw [ht]
    have hv : ((5629499534213120 : ℚ) / 2 ^ 48 * 100) = ((2000 : ℤ) : ℚ) := by norm_num
    rw [hv, round_intCast]

/-- Witness for C4: product id 1 resolves to the small pack and its
subunit amount is the rounded price. -/
theorem checkout_amount_is_rounded_price_witness :
    (amount_in_subunit ⟨1, "Small Credit Pack", floatOfNat 5, 500⟩ : Int) =
      round (F64.toRat (floatOfNat 5) * 100) :=
  checkout_amount_is_rounded_price 1 ⟨1, "Small Credit Pack", floatOfNat 5, 500⟩ rfl

end Store

namespace Store

/-- A truthiness-checked `.get` comparison that succeeds pins the value
to exactly that string. -/
theorem optIsStr_eq_some {o : Option JVal} {s : String}
    (h : optIsStr o s = true) : o = some (.jstr s) := by
  cases o with
  | none => simp [optIsStr] at h
  | some w =>
    cases w <;> simp [optIsStr, isStr] at h
    subst h
    rfl

/-- Reduction of the try body on the full success guard: once the flag is
truthy, `data.status` is `"success"` and the `custom_fields` value is
reachable, `verifyBody` is the scan/fallback/credit pipeline on that
value. -/
theorem verifyBody_success_path (resp data cfv : JVal) (ref : String)
    (hst : truthyOpt (jget? resp "status") = true)
    (hd : jget? resp "data" = some data)
    (hs : jget? data "status" = some (.jstr "success"))
    (hcf : customFieldsOf data = some cfv) :
    verifyBody resp ref =
      (iterElems cfv >>= fun elems =>
        scanFields elems >>= fun c0 =>
          (if c0 = 0 then (pyIndex data "amount").bind pyFallbackVal else .ok c0) >>=
            fun credits =>
              pyIndex data "customer" >>= fun customer =>
                pyIndex customer "email" >>= fun email =>
                  .ok ([(email, credits)], .credited)) := by
  have hobj : ∃ fs, resp = JVal.jobj fs := by
    cases hj : jget? resp "status" with
    | none => rw [hj] at hst; simp [truthyOpt] at hst
    | some st => exact jget_isSome_obj hj
  obtain ⟨fs, rfl⟩ := hobj
  obtain ⟨gs, rfl⟩ := jget_isSome_obj hs
  unfold verifyBody
  rw [pyGet_jobj]
  simp only [ok_bind]
  rw [if_pos (show truthyOpt (List.lookup "status" fs) = true from hst)]
  rw [pyIndex_eq_ok_of _ _ _ hd]
  simp only [ok_bind]
  rw [pyIndex_eq_ok_of _ _ _ hs]
  simp only [ok_bind]
  rw [if_pos (show isStr (JVal.jstr "success") "success" = true from rfl)]
  rw [pyGet_jobj]
  simp only [ok_bind]
  cases hm : (List.lookup "metadata" gs).getD (JVal.jobj []) with
  | jobj ms =>
    have hcfv : cfv = (List.lookup "custom_fields" ms).getD (JVal.jarr []) := by
      unfold customFieldsOf at hcf
      rw [show jget? (JVal.jobj gs) "metadata" = List.lookup "metadata" gs from rfl] at hcf
      rw [hm] at hcf
      simpa using hcf.symm
    rw [pyGet_jobj]
    simp only [ok_bind]
    rw [← hcfv]
    cases hit : iterElems cfv with
    | error e => rfl
    | ok elems =>
      simp only [ok_bind]
      cases hsc : scanFields elems with
      | error e => rfl
      | ok c0 =>
        simp only [ok_bind]
        by_cases hz : c0 = 0
        · simp only [if_pos hz]
        · simp only [if_neg hz]
          rfl
  | jnull => exfalso; unfold customFieldsOf at hcf; rw [show jget? (JVal.jobj gs) "metadata" = List.lookup "metadata" gs from rfl, hm] at hcf; simp at hcf
  | jbool b => exfalso; unfold customFieldsOf at hcf; rw [show jget? (JVal.jobj gs) "metadata" = List.lookup "metadata" gs from rfl, hm] at hcf; simp at hcf
  | jnum z => exfalso; unfold customFieldsOf at hcf; rw [show jget? (JVal.jobj gs) "metadata" = List.lookup "metadata" gs from rfl, hm] at hcf; simp at hcf
  | jstr t => exfalso; unfold customFieldsOf at hcf; rw [show jget? (JVal.jobj gs) "metadata" = List.lookup "metadata" gs from rfl, hm] at hcf; simp at hcf
  | jarr xs => exfalso; unfold customFieldsOf at hcf; rw [show jget? (JVal.jobj gs) "metadata" = List.lookup "metadata" gs from rfl, hm] at hcf; simp at hcf

end Store

namespace Store

/-- A skipped entry leaves the metadata scan unchanged. -/
theorem scanFields_skip (x : JVal) (rest : List JVal) (h : fieldSkipped x = true) :
    scanFields (x :: rest) = scanFields rest := by
  cases x with
  | jobj fs =>
    unfold scanFields
    rw [pyGet_jobj]
    simp only [ok_bind]
    have hvn : optIsStr (List.lookup "variable_name" fs) "credits_to_add" = false := by
      simpa [fieldSkipped] using h
    rw [hvn]
    cases rest with
    | nil => rfl
    | cons f rest2 => rfl
  | jnull => simp [fieldSkipped] at h
  | jbool b => simp [fieldSkipped] at h
  | jnum z => simp [fieldSkipped] at h
  | jstr t => simp [fieldSkipped] at h
  | jarr xs => simp [fieldSkipped] at h

/-- If no entry matches, the scan returns the initial 0. -/
theorem scanFields_all_skipped (l : List JVal)
    (h : ∀ x ∈ l, fieldSkipped x = true) : scanFields l = .ok 0 := by
  induction l with
  | nil => rfl
  | cons x rest ih =>
    rw [scanFields_skip x rest (h x (by simp))]
    exact ih (fun y hy => h y (by simp [hy]))

/-- The scan stops at the first matching entry and converts its value
with `int(...)`. -/
theorem scanFields_finds (pre : List JVal) (entry : JVal) (rest : List JVal)
    (v : JVal) (n : Int)
    (hpre : ∀ x ∈ pre, fieldSkipped x = true)
    (hentry : isCreditsField entry = true)
    (hval : jget? entry "value" = some v)
    (hint : pyToInt v = .ok n) :
    scanFields (pre ++ entry :: rest) = .ok n := by
  induction pre with
  | nil =>
    simp only [List.nil_append]
    have hvn : jget? entry "variable_name" = some (.jstr "credits_to_add") :=
      optIsStr_eq_some hentry
    obtain ⟨fs, rfl⟩ := jget_isSome_obj hvn
    unfold scanFields
    rw [pyGet_jobj]
    simp only [ok_bind]
    rw [if_pos (show optIsStr (List.lookup "variable_name" fs) "credits_to_add" = true
      from hentry)]
    rw [pyIndex_eq_ok_of _ _ _ hval]
    simp only [ok_bind]
    exact hint
  | cons x pre' ih =>
    simp only [List.cons_append]
    rw [scanFields_skip x _ (hpre x (by simp))]
    exact ih (fun y hy => hpre y (by simp [hy]))

/-- C2: when the gateway confirms the transaction (truthy flag, status
`"success"`) and the metadata `custom_fields` list holds an entry with
`variable_name = "credits_to_add"` and a nonzero integer value (the
earlier entries being non-matching objects), `success` credits the
verified transaction's customer email with exactly that metadata value —
not an amount derived from the paid amount. -/
theorem success_credits_metadata_value (qref : Option String) (sess : Session)
    (r : String) (resp data cust email entry : JVal)
    (l pre rest : List JVal) (n : Int)
    (hr : resolvedRef qref sess = some r)
    (hst : truthyOpt (jget? resp "status") = true)
    (hd : jget? resp "data" = some data)
    (hs : jget? data "status" = some (.jstr "success"))
    (hcf : customFieldsOf data = some (.jarr l))
    (hsplit : l = pre ++ entry :: rest)
    (hpre : ∀ x ∈ pre, fieldSkipped x = true)
    (hentry : isCreditsField entry = true)
    (hval : jget? entry "value" = some (.jnum n))
    (hn : n ≠ 0)
    (hcust : jget? data "customer" = some cust)
    (hemail : jget? cust "email" = some email) :
    (success qref sess (.ok resp)).creditsOf = [(email, n)] := by
  unfold success
  rw [hr]
  dsimp only
  rw [verifyBody_success_path resp data (.jarr l) r hst hd hs hcf]
  rw [show iterElems (.jarr l) = .ok l from rfl]
  simp only [ok_bind]
  rw [hsplit, scanFields_finds pre entry rest (.jnum n) n hpre hentry hval rfl]
  simp only [ok_bind]
  rw [if_neg hn]
  simp only [ok_bind]
  rw [pyIndex_eq_ok_of _ _ _ hcust]
  simp only [ok_bind]
  rw [pyIndex_eq_ok_of _ _ _ hemail]
  simp only [ok_bind]
  rfl

/-- Concrete verify response for the C2 witness: flag true, status
`"success"`, one matching metadata entry with value 500, amount 500,
customer email present. -/
def respWithMetadata : JVal :=
  .jobj [("status", .jbool true),
    ("data", .jobj [("status", .jstr "success"),
      ("amount", .jnum 500),
      ("metadata", .jobj [("custom_fields",
        .jarr [.jobj [("display_name", .jstr "Credits"),
          ("variable_name", .jstr "credits_to_add"),
          ("value", .jnum 500)]])]),
      ("customer", .jobj [("email", .jstr "u@x.com")])])]

/-- Witness for C2: the concrete response credits exactly 500 to the
verified email. -/
theorem success_credits_metadata_value_witness :
    (success (some "LUNES-R") ⟨none, none⟩ (.ok respWithMetadata)).creditsOf =
      [(.jstr "u@x.com", 500)] :=
  success_credits_metadata_value (some "LUNES-R") ⟨none, none⟩ "LUNES-R"
    respWithMetadata
    (.jobj [("status", .jstr "success"),
      ("amount", .jnum 500),
      ("metadata", .jobj [("custom_fields",
        .jarr [.jobj [("display_name", .jstr "Credits"),
          ("variable_name", .jstr "credits_to_add"),
          ("value", .jnum 500)]])]),
      ("customer", .jobj [("email", .jstr "u@x.com")])])
    (.jobj [("email", .jstr "u@x.com")]) (.jstr "u@x.com")
    (.jobj [("display_name", .jstr "Credits"),
      ("variable_name", .jstr "credits_to_add"), ("value", .jnum 500)])
    [.jobj [("display_name", .jstr "Credits"),
      ("variable_name", .jstr "credits_to_add"), ("value", .jnum 500)]] [] []
    500 rfl rfl rfl rfl rfl rfl (by simp) rfl rfl (by decide) rfl rfl

end Store

namespace Store

/-- Concrete verify response with no metadata and a paid amount of 29
subunits. -/
def respAmount29 : JVal :=
  .jobj [("status", .jbool true),
    ("data", .jobj [("status", .jstr "success"),
      ("amount", .jnum 29),
      ("customer", .jobj [("email", .jstr "u@x.com")])])]

/-- C3 counterexample: with no metadata and paid amount 29, the code
credits `int(29 / 100 * 100) = 28` (binary64: `29 / 100` rounds to a
double slightly below 0.29, and `× 100` truncates to 28), whereas the
claimed exact formula `⌊29 / 100 × 100⌋` equals 29. -/
theorem success_fallback_formula_counterexample :
    (success (some "LUNES-R") ⟨none, none⟩ (.ok respAmount29)).creditsOf =
      [(.jstr "u@x.com", 28)] ∧
    (28 : Int) ≠ ⌊(29 : ℚ) / 100 * 100⌋ := by
  constructor
  · rfl
  · have h : ((29 : ℚ) / 100 * 100) = ((29 : Int) : ℚ) := by norm_num
    rw [h, Int.floor_intCast]
    decide

/-- C3 amended: under the full success guard, when the `credits_to_add`
metadata entry is missing (every entry skipped) or its first match has
integer value 0, the credited amount is `pyFallback p` — the binary64
evaluation of `int(p / 100 * 100)` on the verified paid subunit amount
`p`, which equals `p` for most values (e.g. the catalog amounts) but not
all (29 ↦ 28). -/
theorem success_fallback_is_binary64 (qref : Option String) (sess : Session)
    (r : String) (resp data cust email : JVal) (l : List JVal) (p : Int)
    (hr : resolvedRef qref sess = some r)
    (hst : truthyOpt (jget? resp "status") = true)
    (hd : jget? resp "data" = some data)
    (hs : jget? data "status" = some (.jstr "success"))
    (hcf : customFieldsOf data = some (.jarr l))
    (hzero : (∀ x ∈ l, fieldSkipped x = true) ∨
      ∃ pre entry rest, l = pre ++ entry :: rest ∧
        (∀ x ∈ pre, fieldSkipped x = true) ∧
        isCreditsField entry = true ∧ jget? entry "value" = some (.jnum 0))
    (hamt : jget? data "amount" = some (.jnum p))
    (hcust : jget? data "customer" = some cust)
    (hemail : jget? cust "email" = some email) :
    (success qref sess (.ok resp)).creditsOf = [(email, pyFallback p)] := by
  unfold success
  rw [hr]
  dsimp only
  rw [verifyBody_success_path resp data (.jarr l) r hst hd hs hcf]
  rw [show iterElems (.jarr l) = .ok l from rfl]
  simp only [ok_bind]
  have hscan : scanFields l = .ok 0 := by
    rcases hzero with hall | ⟨pre, entry, rest, hsplit, hpre, hentry, hval⟩
    · exact scanFields_all_skipped l hall
    · rw [hsplit]
      exact scanFields_finds pre entry rest (.jnum 0) 0 hpre hentry hval rfl
  rw [hscan]
  simp only [ok_bind]
  simp only [if_true]
  rw [pyIndex_eq_ok_of _ _ _ hamt]
  rw [show (Except.ok (JVal.jnum p) : Except PyErr JVal).bind pyFallbackVal =
    .ok (pyFallback p) from rfl]
  simp only [ok_bind]
  rw [pyIndex_eq_ok_of _ _ _ hcust]
  simp only [ok_bind]
  rw [pyIndex_eq_ok_of _ _ _ hemail]
  simp only [ok_bind]
  rfl

/-- Witness for the amended C3: the concrete amount-29 response credits
`pyFallback 29` to the verified email. -/
theorem success_fallback_is_binary64_witness :
    (success (some "LUNES-R") ⟨none, none⟩ (.ok respAmount29)).creditsOf =
      [(.jstr "u@x.com", pyFallback 29)] :=
  success_fallback_is_binary64 (some "LUNES-R") ⟨none, none⟩ "LUNES-R"
    respAmount29
    (.jobj [("status", .jstr "success"),
      ("amount", .jnum 29),
      ("customer", .jobj [("email", .jstr "u@x.com")])])
    (.jobj [("email", .jstr "u@x.com")]) (.jstr "u@x.com") [] 29
    rfl rfl rfl rfl rfl (Or.inl (by simp)) rfl rfl rfl

end Store

namespace Store

/-- C9: the pending reference is written into the session exactly when
the catalog lookup, email check and credential check all pass and the
initialize response carries a truthy `status` flag; on every other path —
unknown product, missing email, missing credential, gateway-reported
failure (falsy flag), transport error — the session is unchanged.  (When
the write does happen, it also survives the unhandled-exception path of a
malformed truthy response, since line 153 runs before the `data`
accesses.) -/
theorem checkout_session_write (product_id : Int) (sess : Session)
    (secretKey : Option String) (uuidHex : String) (init : HttpOutcome) :
    (checkout product_id sess secretKey uuidHex init).sessionOf =
      (if checkoutWrites product_id sess secretKey init then
        { sess with paystack_reference := some (generate_paystack_reference (sess.email.getD "") product_id uuidHex) }
       else sess) := by
  unfold checkout checkoutWrites
  cases hf : products.find? (fun p => p.id == product_id) with
  | none => simp [CheckoutOutcome.sessionOf]
  | some product =>
    dsimp only
    by_cases he : (sess.email.getD "").isEmpty = true
    · rw [if_pos he]
      simp [he, CheckoutOutcome.sessionOf]
    · rw [if_neg he]
      by_cases hk : (secretKey.getD "").isEmpty = true
      · rw [if_pos hk]
        simp [he, hk, CheckoutOutcome.sessionOf]
      · rw [if_neg hk]
        cases init with
        | transportErr => simp [he, hk, CheckoutOutcome.sessionOf]
        | ok body =>
          cases body with
          | jobj fs =>
            dsimp only
            rw [pyGet_jobj]
            dsimp only
            by_cases ht : truthyOpt (List.lookup "status" fs) = true
            · rw [if_pos ht]
              have hw : (Option.isSome (some product) && !(sess.email.getD "").isEmpty &&
                  !(secretKey.getD "").isEmpty &&
                  truthyOpt (jget? (JVal.jobj fs) "status")) = true := by
                simp [he, hk]
                exact ht
              rw [if_pos hw]
              cases hauth : (pyIndex (JVal.jobj fs) "data").bind
                  (fun d => pyIndex d "authorization_url") with
              | error e => rfl
              | ok u => rfl
            · rw [if_neg ht]
              have hw : (Option.isSome (some product) && !(sess.email.getD "").isEmpty &&
                  !(secretKey.getD "").isEmpty &&
                  truthyOpt (jget? (JVal.jobj fs) "status")) = false := by
                have ht2 : truthyOpt (jget? (JVal.jobj fs) "status") = false := by
                  simpa using ht
                simp [ht2]
              rw [if_neg (by rw [hw]; simp)]
              rfl
          | jnull => simp [pyGet, truthyOpt, jget?, he, hk, CheckoutOutcome.sessionOf]
          | jbool b => simp [pyGet, truthyOpt, jget?, he, hk, CheckoutOutcome.sessionOf]
          | jnum z => simp [pyGet, truthyOpt, jget?, he, hk, CheckoutOutcome.sessionOf]
          | jstr t => simp [pyGet, truthyOpt, jget?, he, hk, CheckoutOutcome.sessionOf]
          | jarr xs => simp [pyGet, truthyOpt, jget?, he, hk, CheckoutOutcome.sessionOf]

end Store

namespace Store

/-- C7 counterexample: a checkout with a valid product, email and key
that receives `{"status": true}` (truthy flag, no `data`) raises a
`KeyError` at `response_data['data']['authorization_url']`, which the
route's `except RequestException` handler does not catch — this
execution path does not end in a redirect. -/
theorem checkout_unhandled_counterexample :
    (checkout 1 ⟨some "a@b.c", none⟩ (some "sk") "ABCDEF1234"
      (.ok (.jobj [("status", .jbool true)]))).isDone = false := rfl

/-- C7 amended: `success` and `cancel` always complete with a redirect
(to the home page), for any gateway response shape; `checkout` completes
with a redirect for every input whose initialize response is benign — a
transport error, or a JSON object that either has a falsy `status` flag
or carries `data.authorization_url`.  (A truthy-flag response missing
those fields, or a non-object JSON body, escapes `checkout` as an
unhandled exception.) -/
theorem routes_redirect_amended :
    (∀ qref sess verify, ∃ res, success qref sess verify = .done res ∧
      res.redirect = .userIndex) ∧
    (∀ sess, ∃ res, cancel sess = .done res ∧ res.redirect = .userIndex) ∧
    (∀ product_id sess secretKey uuidHex init, initRespBenign init = true →
      (checkout product_id sess secretKey uuidHex init).isDone = true) := by
  refine ⟨?_, ?_, ?_⟩
  · intro qref sess verify
    unfold success
    cases resolvedRef qref sess with
    | none => exact ⟨_, rfl, rfl⟩
    | some r =>
      dsimp only
      cases verify with
      | transportErr => exact ⟨_, rfl, rfl⟩
      | ok body =>
        dsimp only
        cases hvb : verifyBody body r with
        | error e => exact ⟨_, rfl, rfl⟩
        | ok out => obtain ⟨cs, fl⟩ := out; exact ⟨_, rfl, rfl⟩
  · intro sess
    exact ⟨_, rfl, rfl⟩
  · intro product_id sess secretKey uuidHex init hb
    unfold checkout
    cases hf : products.find? (fun p => p.id == product_id) with
    | none => rfl
    | some product =>
      dsimp only
      by_cases he : (sess.email.getD "").isEmpty = true
      · rw [if_pos he]; rfl
      · rw [if_neg he]
        by_cases hk : (secretKey.getD "").isEmpty = true
        · rw [if_pos hk]; rfl
        · rw [if_neg hk]
          cases init with
          | transportErr => rfl
          | ok body =>
            cases body with
            | jobj fs =>
              dsimp only
              rw [pyGet_jobj]
              dsimp only
              by_cases ht : truthyOpt (List.lookup "status" fs) = true
              · rw [if_pos ht]
                have hb2 : ((List.lookup "data" fs).bind
                    (fun d => jget? d "authorization_url")).isSome = true := by
                  unfold initRespBenign at hb
                  dsimp only at hb
                  rw [if_pos ht] at hb
                  exact hb
                obtain ⟨u, hu⟩ := Option.isSome_iff_exists.mp hb2
                obtain ⟨d, hd1, hd2⟩ := Option.bind_eq_some.mp hu
                rw [show (pyIndex (JVal.jobj fs) "data").bind
                    (fun d2 => pyIndex d2 "authorization_url") = .ok u from ?_]
                · rfl
                · rw [pyIndex_eq_ok_of _ _ _
                    (show jget? (JVal.jobj fs) "data" = some d from hd1)]
                  exact pyIndex_eq_ok_of _ _ _ hd2
              · rw [if_neg ht]; rfl
            | jnull => simp [initRespBenign] at hb
            | jbool b => simp [initRespBenign] at hb
            | jnum z => simp [initRespBenign] at hb
            | jstr t => simp [initRespBenign] at hb
            | jarr xs => simp [initRespBenign] at hb

end Store

namespace Store

/-- Witness for the amended C7: a falsy-flag initialize response lets
`checkout` finish with a redirect. -/
theorem routes_redirect_amended_witness :
    (checkout 1 ⟨some "a@b.c", none⟩ (some "sk") "ABCDEF1234"
      (.ok (.jobj [("status", .jbool false), ("message", .jstr "declined")]))).isDone
      = true :=
  routes_redirect_amended.2.2 1 ⟨some "a@b.c", none⟩ (some "sk") "ABCDEF1234"
    (.ok (.jobj [("status", .jbool false), ("message", .jstr "declined")])) rfl

end Store

namespace Store

/-- A truthy `status` flag implies the response is a JSON object. -/
theorem truthy_status_obj {resp : JVal}
    (hst : truthyOpt (jget? resp "status") = true) :
    ∃ fs, resp = JVal.jobj fs := by
  cases hj : jget? resp "status" with
  | none => rw [hj] at hst; simp [truthyOpt] at hst
  | some st => exact jget_isSome_obj hj

/-- A failed lookup makes Python indexing raise. -/
theorem pyIndex_err_of_none {v : JVal} {k : String} (h : jget? v k = none) :
    ∃ e, pyIndex v k = .error e := by
  cases v with
  | jobj fs =>
    have hl : List.lookup k fs = none := h
    exact ⟨.keyError, by simp [pyIndex, hl]⟩
  | jnull => exact ⟨.typeError, rfl⟩
  | jbool b => exact ⟨.typeError, rfl⟩
  | jnum n => exact ⟨.typeError, rfl⟩
  | jstr s => exact ⟨.typeError, rfl⟩
  | jarr xs => exact ⟨.typeError, rfl⟩

/-- With a truthy flag but no `data` field, the try body raises
`KeyError` at `response_data['data']['status']`. -/
theorem verifyBody_error_data_missing (resp : JVal) (ref : String)
    (hst : truthyOpt (jget? resp "status") = true)
    (hd : jget? resp "data" = none) :
    verifyBody resp ref = .error .keyError := by
  obtain ⟨fs, rfl⟩ := truthy_status_obj hst
  unfold verifyBody
  rw [pyGet_jobj]
  simp only [ok_bind]
  rw [if_pos (show truthyOpt (List.lookup "status" fs) = true from hst)]
  have hl : List.lookup "data" fs = none := hd
  rw [show pyIndex (JVal.jobj fs) "data" = .error .keyError by simp [pyIndex, hl]]
  rfl

/-- With a non-object `metadata` value, the success branch raises
`AttributeError` at `.get('custom_fields', ...)`. -/
theorem verifyBody_error_bad_metadata (resp data : JVal) (ref : String)
    (hst : truthyOpt (jget? resp "status") = true)
    (hd : jget? resp "data" = some data)
    (hs : jget? data "status" = some (.jstr "success"))
    (hcf : customFieldsOf data = none) :
    verifyBody resp ref = .error .attributeError := by
  obtain ⟨fs, rfl⟩ := truthy_status_obj hst
  obtain ⟨gs, rfl⟩ := jget_isSome_obj hs
  unfold verifyBody
  rw [pyGet_jobj]
  simp only [ok_bind]
  rw [if_pos (show truthyOpt (List.lookup "status" fs) = true from hst)]
  rw [pyIndex_eq_ok_of _ _ _ hd]
  simp only [ok_bind]
  rw [pyIndex_eq_ok_of _ _ _ hs]
  simp only [ok_bind]
  rw [if_pos (show isStr (JVal.jstr "success") "success" = true from rfl)]
  rw [pyGet_jobj]
  simp only [ok_bind]
  cases hm : (List.lookup "metadata" gs).getD (JVal.jobj []) with
  | jobj ms =>
    exfalso
    unfold customFieldsOf at hcf
    rw [show jget? (JVal.jobj gs) "metadata" = List.lookup "metadata" gs from rfl,
      hm] at hcf
    simp at hcf
  | jnull => rfl
  | jbool b => rfl
  | jnum z => rfl
  | jstr t => rfl
  | jarr xs => rfl

/-- If the first matching metadata entry has a missing or non-integer
`value`, the scan raises. -/
theorem scanFields_error (pre : List JVal) (entry : JVal) (rest : List JVal)
    (hpre : ∀ x ∈ pre, fieldSkipped x = true)
    (hentry : isCreditsField entry = true)
    (hbad : intOfField entry = none) :
    ∃ e, scanFields (pre ++ entry :: rest) = .error e := by
  induction pre with
  | nil =>
    have hvn : jget? entry "variable_name" = some (.jstr "credits_to_add") :=
      optIsStr_eq_some hentry
    obtain ⟨fs, rfl⟩ := jget_isSome_obj hvn
    simp only [List.nil_append]
    unfold scanFields
    rw [pyGet_jobj]
    simp only [ok_bind]
    rw [if_pos (show optIsStr (List.lookup "variable_name" fs) "credits_to_add" = true
      from hentry)]
    cases hv : jget? (JVal.jobj fs) "value" with
    | none =>
      obtain ⟨e, he⟩ := pyIndex_err_of_none hv
      exact ⟨e, by rw [he]; rfl⟩
    | some v =>
      have hpn : pyToInt? v = none := by
        have := hbad
        unfold intOfField at this
        rw [hv] at this
        simpa using this
      cases hp : pyToInt v with
      | ok n => exfalso; unfold pyToInt? at hpn; rw [hp] at hpn; simp [Except.toOption] at hpn
      | error e =>
        exact ⟨e, by rw [pyIndex_eq_ok_of _ _ _ hv]; simp only [ok_bind]; exact hp⟩
  | cons x pre2 ih =>
    simp only [List.cons_append]
    rw [scanFields_skip x _ (hpre x (by simp))]
    exact ih (fun y hy => hpre y (by simp [hy]))

/-- The final credit step raises when the verified transaction carries no
customer email. -/
theorem creditStep_error (data : JVal) (credits : Int)
    (hem : (jget? data "customer").bind (fun c => jget? c "email") = none) :
    ∃ e, (pyIndex data "customer" >>= fun customer =>
      pyIndex customer "email" >>= fun email =>
        (Except.ok ([(email, credits)], FlashMsg.credited) :
          Except PyErr (List (JVal × Int) × FlashMsg))) = .error e := by
  cases hc : jget? data "customer" with
  | none =>
    obtain ⟨e, he⟩ := pyIndex_err_of_none hc
    exact ⟨e, by rw [he]; rfl⟩
  | some cust =>
    have hce : jget? cust "email" = none := by
      rw [hc] at hem
      simpa using hem
    obtain ⟨e, he⟩ := pyIndex_err_of_none hce
    refine ⟨e, ?_⟩
    rw [pyIndex_eq_ok_of _ _ _ hc]
    simp only [ok_bind]
    rw [he]
    rfl

/-- Any continuation of the success branch raises when the customer
email is missing (whatever the metadata scan and fallback do first). -/
theorem verifyBody_error_no_email (resp data : JVal) (ref : String)
    (hst : truthyOpt (jget? resp "status") = true)
    (hd : jget? resp "data" = some data)
    (hs : jget? data "status" = some (.jstr "success"))
    (hem : (jget? data "customer").bind (fun c => jget? c "email") = none) :
    ∃ e, verifyBody resp ref = .error e := by
  cases hcf : customFieldsOf data with
  | none => exact ⟨_, verifyBody_error_bad_metadata resp data ref hst hd hs hcf⟩
  | some cfv =>
    rw [verifyBody_success_path resp data cfv ref hst hd hs hcf]
    cases hit : iterElems cfv with
    | error e => exact ⟨e, rfl⟩
    | ok elems =>
      simp only [ok_bind]
      cases hsc : scanFields elems with
      | error e => exact ⟨e, rfl⟩
      | ok c0 =>
        simp only [ok_bind]
        by_cases hz : c0 = 0
        · simp only [if_pos hz]
          cases ha : (pyIndex data "amount").bind pyFallbackVal with
          | error e => exact ⟨e, rfl⟩
          | ok cr =>
            simp only [ok_bind]
            exact creditStep_error data cr hem
        · simp only [if_neg hz]
          simp only [ok_bind]
          exact creditStep_error data c0 hem

/-- C10: when the success branch encounters a malformed verify response —
`data` missing despite a truthy flag, the transaction's customer email
missing, or a `credits_to_add` entry whose value is missing or not
convertible with `int(...)` — the raised exception is caught by the broad
handler: no account is credited, the generic internal-error message is
flashed, and the route redirects home with the session reference
cleared. -/
theorem success_processing_error_caught (qref : Option String) (sess : Session)
    (r : String) (resp : JVal)
    (hr : resolvedRef qref sess = some r)
    (hst : truthyOpt (jget? resp "status") = true)
    (hbad : jget? resp "data" = none ∨
      ∃ data, jget? resp "data" = some data ∧
        jget? data "status" = some (.jstr "success") ∧
        ((jget? data "customer").bind (fun c => jget? c "email") = none ∨
         ∃ l pre entry rest, customFieldsOf data = some (.jarr l) ∧
           l = pre ++ entry :: rest ∧ (∀ x ∈ pre, fieldSkipped x = true) ∧
           isCreditsField entry = true ∧ intOfField entry = none)) :
    success qref sess (.ok resp) =
      .done ⟨[], .internalError, .userIndex,
        { sess with paystack_reference := none }⟩ := by
  have herr : ∃ e, verifyBody resp r = .error e := by
    rcases hbad with hd | ⟨data, hd, hs, hrest⟩
    · exact ⟨_, verifyBody_error_data_missing resp r hst hd⟩
    · rcases hrest with hem | ⟨l, pre, entry, rest, hcf, hsplit, hpre, hentry, hbadv⟩
      · exact verifyBody_error_no_email resp data r hst hd hs hem
      · rw [verifyBody_success_path resp data (.jarr l) r hst hd hs hcf]
        rw [show iterElems (.jarr l) = .ok l from rfl]
        simp only [ok_bind]
        obtain ⟨e, he⟩ := scanFields_error pre entry rest hpre hentry hbadv
        rw [hsplit, he]
        exact ⟨e, rfl⟩
  obtain ⟨e, he⟩ := herr
  unfold success
  rw [hr]
  dsimp only
  rw [he]

/-- Concrete verify response for the C10 witness: success status but no
`customer` object at all. -/
def respNoCustomer : JVal :=
  .jobj [("status", .jbool true),
    ("data", .jobj [("status", .jstr "success"), ("amount", .jnum 500)])]

/-- Witness for C10: the missing-customer response is caught, credits
nobody, and redirects with the generic message. -/
theorem success_processing_error_caught_witness :
    success (some "LUNES-R") ⟨none, some "X"⟩ (.ok respNoCustomer) =
      .done ⟨[], .internalError, .userIndex, ⟨none, none⟩⟩ :=
  success_processing_error_caught (some "LUNES-R") ⟨none, some "X"⟩ "LUNES-R"
    respNoCustomer rfl rfl
    (Or.inr ⟨.jobj [("status", .jstr "success"), ("amount", .jnum 500)],
      rfl, rfl, Or.inl rfl⟩)

end Store
